import Mathlib

/-!
Shallow embedding of the deterministic mock embedding server
(src/docker/bge-m3-mock/server.py) and proofs of its specified properties.

Python values decoded from JSON request bodies are modelled by the `Json`
inductive below (JSON numbers are modelled as integers, which covers every
numeric value appearing in the specification).  Python dynamic-typing
failures (calling `.get` on a non-dict) and `int(...)` parse failures are
modelled by the `PyErr` type; a handler that raises is modelled as
returning `Except.error`, which the web framework turns into a 500 status.

Floating point: every vector component produced by the server is
`uniform(-1.0, 1.0)` = `-1.0 + 2.0 * (k / 2^53)` for an integer
`0 <= k < 2^53` drawn from the Mersenne Twister; all of those IEEE-754
operations are exact, so components are modelled bit-faithfully as the
rational `-1 + 2 * k / 2^53`.
-/

/-- Decoded JSON value as produced by `request.get_json`. -/
inductive Json where
  | null : Json
  | bool : Bool → Json
  | int : Int → Json
  | str : String → Json
  | arr : List Json → Json
  | obj : List (String × Json) → Json

/-- Python exceptions that the embedded code can raise. -/
inductive PyErr where
  | valueError : PyErr
  | attributeError : PyErr
deriving DecidableEq, Repr

/-- Python truthiness of a decoded JSON value (`bool(x)`). -/
def pyTruthy : Json → Bool
  | .null => false
  | .bool b => b
  | .int n => n != 0
  | .str s => s.length != 0
  | .arr l => l.length != 0
  | .obj kvs => kvs.length != 0

/-- Escape a character for Python string repr with the given quote char. -/
def pyEscapeChar (quote : Char) (c : Char) : String :=
  if c = Char.ofNat 92 then "\\\\"
  else if c = quote then "\\" ++ String.singleton quote
  else if c = Char.ofNat 10 then "\\n"
  else if c = Char.ofNat 13 then "\\r"
  else if c = Char.ofNat 9 then "\\t"
  else String.singleton c

/-- Python `repr` of a string: single quotes, unless the string contains a
single quote and no double quote.  (Escaping of other non-printable
characters is out of scope; no claim depends on it.) -/
def pyQuoteStr (s : String) : String :=
  let sq := Char.ofNat 39
  let dq := Char.ofNat 34
  let hasChar := fun (c : Char) => s.data.any (fun d => d = c)
  let quote := if hasChar sq && !(hasChar dq) then dq else sq
  String.singleton quote ++ String.join (s.data.map (pyEscapeChar quote)) ++
    String.singleton quote

mutual

/-- Python `repr` of a decoded JSON value. -/
def pyRepr : Json → String
  | .null => "None"
  | .bool true => "True"
  | .bool false => "False"
  | .int n => toString n
  | .str s => pyQuoteStr s
  | .arr l => "[" ++ String.intercalate ", " (pyReprList l) ++ "]"
  | .obj kvs => "\x7b" ++ String.intercalate ", " (pyReprObj kvs) ++ "\x7d"

/-- Helper for `pyRepr` on list elements. -/
def pyReprList : List Json → List String
  | [] => []
  | x :: xs => pyRepr x :: pyReprList xs

/-- Helper for `pyRepr` on dict entries. -/
def pyReprObj : List (String × Json) → List String
  | [] => []
  | (k, v) :: xs => (pyQuoteStr k ++ ": " ++ pyRepr v) :: pyReprObj xs

end

/-- Python `str(x)` of a decoded JSON value: identity on strings, `repr`
otherwise (which is what `str` does on None, bools, ints, lists, dicts). -/
def pyStr (j : Json) : String :=
  match j with
  | .str s => s
  | _ => pyRepr j

/-- Lookup in a decoded JSON object (Python dict keys are unique, so
first-match lookup is faithful). -/
def dictLookup (kvs : List (String × Json)) (k : String) : Option Json :=
  (kvs.find? (fun kv => kv.1 == k)).map (·.2)

/-- Python `payload.get(key, default)`: only dicts have `.get`; any other
payload raises `AttributeError`. -/
def pyGet (payload : Json) (k : String) (dflt : Json) : Except PyErr Json :=
  match payload with
  | .obj kvs => .ok ((dictLookup kvs k).getD dflt)
  | _ => .error .attributeError

/-- Embedding of `normalize_inputs` (server.py lines 20-26).  The `dict`
annotation on the parameter is not enforced by Python, so the `.get` call
on a non-dict payload raises. -/
def normalize_inputs (payload : Json) : Except PyErr (List String) :=
  match pyGet payload "inputs" (Json.arr []) with
  | .error e => .error e
  | .ok (.str s) => .ok [s]
  | .ok (.arr l) => .ok (l.map pyStr)
  | .ok _ => .ok []

/-- Embedding of `request.get_json(force=True, silent=True) or \x7b\x7d`:
`none` models an absent or unparseable body (get_json returns None), and a
falsy decoded value is replaced by the empty dict by the `or`. -/
def effectivePayload (body : Option Json) : Json :=
  match body with
  | none => Json.obj []
  | some j => if pyTruthy j then j else Json.obj []

/-- Embedding of Python `int(s)` on a string: optional surrounding
whitespace, optional sign, then decimal digits; anything else raises
`ValueError`.  (Underscore separators are out of scope; no claim uses
them.) -/
def pyInt (s : String) : Except PyErr Int :=
  let isSpace := fun (c : Char) => c.toNat = 32 || (9 ≤ c.toNat && c.toNat ≤ 13)
  let isDigitCh := fun (c : Char) => 48 ≤ c.toNat && c.toNat ≤ 57
  let t := ((s.data.dropWhile isSpace).reverse.dropWhile isSpace).reverse
  let (sgn, ds) :=
    match t with
    | c :: rest =>
      if c = Char.ofNat 45 then ((-1 : Int), rest)
      else if c = Char.ofNat 43 then ((1 : Int), rest)
      else ((1 : Int), t)
    | [] => ((1 : Int), t)
  if ds.length != 0 && ds.all isDigitCh then
    .ok (sgn * (ds.foldl (fun acc c => acc * 10 + (c.toNat - 48)) 0 : Nat))
  else
    .error .valueError

/-- Embedding of `os.environ.get(key, default)`. -/
def envGet (env : List (String × String)) (k : String) (dflt : String) :
    String :=
  ((env.find? (fun kv => kv.1 == k)).map (·.2)).getD dflt

/-- Embedding of the module-level line
`EMBEDDING_DIM = int(os.environ.get("EMBEDDING_DIM", "1024"))`
(server.py line 10), which runs at import time, before any route is
served; a `ValueError` here kills the process at startup. -/
def startup (env : List (String × String)) : Except PyErr Int :=
  pyInt (envGet env "EMBEDDING_DIM" "1024")

/-! ### SHA-256 (hashlib.sha256) over byte lists, producing the digest as a
natural number, equal to Python `int(hashlib.sha256(b).hexdigest(), 16)`. -/

/-- UTF-8 encoding of a single Unicode code point. -/
def utf8EncodeChar (c : Nat) : List Nat :=
  if c < 0x80 then [c]
  else if c < 0x800 then
    [0xC0 ||| (c >>> 6), 0x80 ||| (c &&& 0x3F)]
  else if c < 0x10000 then
    [0xE0 ||| (c >>> 12), 0x80 ||| ((c >>> 6) &&& 0x3F), 0x80 ||| (c &&& 0x3F)]
  else
    [0xF0 ||| (c >>> 18), 0x80 ||| ((c >>> 12) &&& 0x3F),
     0x80 ||| ((c >>> 6) &&& 0x3F), 0x80 ||| (c &&& 0x3F)]

/-- Embedding of Python `text.encode("utf-8")`. -/
def utf8Encode (s : String) : List Nat :=
  (s.data.map (fun c => utf8EncodeChar c.toNat)).flatten

/-- SHA-256 round constants (decimal rendering of the FIPS 180-4 table). -/
def sha256K : List Nat :=
  [1116352408, 1899447441, 3049323471, 3921009573, 961987163,
   1508970993, 2453635748, 2870763221, 3624381080, 310598401,
   607225278, 1426881987, 1925078388, 2162078206, 2614888103,
   3248222580, 3835390401, 4022224774, 264347078, 604807628,
   770255983, 1249150122, 1555081692, 1996064986, 2554220882,
   2821834349, 2952996808, 3210313671, 3336571891, 3584528711,
   113926993, 338241895, 666307205, 773529912, 1294757372,
   1396182291, 1695183700, 1986661051, 2177026350, 2456956037,
   2730485921, 2820302411, 3259730800, 3345764771, 3516065817,
   3600352804, 4094571909, 275423344, 430227734, 506948616,
   659060556, 883997877, 958139571, 1322822218, 1537002063,
   1747873779, 1955562222, 2024104815, 2227730452, 2361852424,
   2428436474, 2756734187, 3204031479, 3329325298]

/-- SHA-256 initial hash value (decimal rendering). -/
def sha256H0 : List Nat :=
  [1779033703, 3144134277, 1013904242, 2773480762,
   1359893119, 2600822924, 528734635, 1541459225]

/-- Rotate a 32-bit word right by n. -/
def rotr32 (n x : Nat) : Nat := ((x >>> n) ||| (x <<< (32 - n))) % 2 ^ 32

/-- SHA-256 message padding: append 0x80, zeros, and 64-bit big-endian bit
length, to a multiple of 64 bytes. -/
def sha256Pad (msg : List Nat) : List Nat :=
  let L := msg.length
  let zeros := (119 - (L % 64)) % 64
  let bitLen := 8 * L
  msg ++ 0x80 :: List.replicate zeros 0 ++
    ([56, 48, 40, 32, 24, 16, 8, 0].map (fun i => (bitLen >>> i) % 256))

/-- Group bytes into big-endian 32-bit words. -/
def bytesToWords : List Nat → List Nat
  | b0 :: b1 :: b2 :: b3 :: rest =>
    (b0 <<< 24 ||| b1 <<< 16 ||| b2 <<< 8 ||| b3) :: bytesToWords rest
  | _ => []

/-- Split a word list into 16-word blocks. -/
def chunk16 : List Nat → List (List Nat)
  | [] => []
  | x :: rest => (x :: rest.take 15) :: chunk16 (rest.drop 15)
termination_by l => l.length
decreasing_by
  simp only [List.length_cons, List.length_drop]
  omega

/-- Expand the 16-word block to the 64-word message schedule; the fuel
argument counts the 48 remaining words. -/
def sha256Extend : Nat → List Nat → List Nat
  | 0, w => w
  | f + 1, w =>
    let t := w.length
    let s0 :=
      rotr32 7 (w.getD (t - 15) 0) ^^^ rotr32 18 (w.getD (t - 15) 0) ^^^
        (w.getD (t - 15) 0 >>> 3)
    let s1 :=
      rotr32 17 (w.getD (t - 2) 0) ^^^ rotr32 19 (w.getD (t - 2) 0) ^^^
        (w.getD (t - 2) 0 >>> 10)
    sha256Extend f
      (w ++ [(w.getD (t - 16) 0 + s0 + w.getD (t - 7) 0 + s1) % 2 ^ 32])

/-- One SHA-256 compression round on the working state [a,b,c,d,e,f,g,h]
with round constant and schedule word. -/
def sha256Round (st : List Nat) (kw : Nat × Nat) : List Nat :=
  let a := st.getD 0 0
  let b := st.getD 1 0
  let c := st.getD 2 0
  let d := st.getD 3 0
  let e := st.getD 4 0
  let f := st.getD 5 0
  let g := st.getD 6 0
  let h := st.getD 7 0
  let S1 := rotr32 6 e ^^^ rotr32 11 e ^^^ rotr32 25 e
  let ch := (e &&& f) ^^^ ((e ^^^ 0xFFFFFFFF) &&& g)
  let t1 := (h + S1 + ch + kw.1 + kw.2) % 2 ^ 32
  let S0 := rotr32 2 a ^^^ rotr32 13 a ^^^ rotr32 22 a
  let mj := (a &&& b) ^^^ (a &&& c) ^^^ (b &&& c)
  let t2 := (S0 + mj) % 2 ^ 32
  [(t1 + t2) % 2 ^ 32, a, b, c, (d + t1) % 2 ^ 32, e, f, g]

/-- Process one 16-word block against the running hash value. -/
def sha256Block (hv : List Nat) (block : List Nat) : List Nat :=
  let w := sha256Extend 48 block
  let st := (sha256K.zip w).foldl sha256Round hv
  List.zipWith (fun x y => (x + y) % 2 ^ 32) hv st

/-- SHA-256 digest of a byte list, as the list of eight 32-bit words. -/
def sha256Words (msg : List Nat) : List Nat :=
  (chunk16 (bytesToWords (sha256Pad msg))).foldl sha256Block sha256H0

/-- Embedding of `int(hashlib.sha256(b).hexdigest(), 16)`: the digest as a
big-endian natural number. -/
def sha256Int (msg : List Nat) : Nat :=
  (sha256Words msg).foldl (fun acc w => acc * 2 ^ 32 + w) 0

/-! ### Mersenne Twister (CPython `random.Random`), embedded over `Nat`
with explicit reduction mod 2^32 wherever the C code operates on uint32. -/

/-- State of the twister: 624 words and the read index. -/
structure MTState where
  mt : List Nat
  index : Nat

/-- Tail of `init_genrand`: emit the remaining words, given the next index
and the previous word. -/
def initGenrandAux : Nat → Nat → Nat → List Nat
  | 0, _, _ => []
  | k + 1, i, prev =>
    let v := (1812433253 * (prev ^^^ (prev >>> 30)) + i) % 2 ^ 32
    v :: initGenrandAux k (i + 1) v

/-- Embedding of `init_genrand(s)`: the 624-word state array. -/
def initGenrand (s : Nat) : List Nat :=
  (s % 2 ^ 32) :: initGenrandAux 623 1 (s % 2 ^ 32)

/-- First mixing loop of `init_by_array` (key injection), with in-place
updates on the state list; `k` is the remaining iteration count.  Returns
the state together with the final position `i`, which the second loop
continues from. -/
def ibaMix1 (key : List Nat) : Nat → Nat → Nat → List Nat → List Nat × Nat
  | 0, i, _, mt => (mt, i)
  | k + 1, i, j, mt =>
    let prev := mt.getD (i - 1) 0
    let v := ((mt.getD i 0 ^^^ ((prev ^^^ (prev >>> 30)) * 1664525)) +
      key.getD j 0 + j) % 2 ^ 32
    let mt1 := mt.set i v
    let j1 := if key.length ≤ j + 1 then 0 else j + 1
    if 624 ≤ i + 1 then
      ibaMix1 key k 1 j1 (mt1.set 0 (mt1.getD 623 0))
    else
      ibaMix1 key k (i + 1) j1 mt1

/-- Second mixing loop of `init_by_array`; the uint32 subtraction
`mt[i] - i` is rendered as addition of `2^32 - i` before the reduction. -/
def ibaMix2 : Nat → Nat → List Nat → List Nat
  | 0, _, mt => mt
  | k + 1, i, mt =>
    let prev := mt.getD (i - 1) 0
    let v := ((mt.getD i 0 ^^^ ((prev ^^^ (prev >>> 30)) * 1566083941)) +
      (2 ^ 32 - i)) % 2 ^ 32
    let mt := mt.set i v
    if 624 ≤ i + 1 then ibaMix2 k 1 (mt.set 0 (mt.getD 623 0))
    else ibaMix2 k (i + 1) mt

/-- Embedding of `init_by_array(key)`. -/
def initByArray (key : List Nat) : List Nat :=
  let mt0 := initGenrand 19650218
  let (mt1, i1) := ibaMix1 key (max 624 key.length) 1 0 mt0
  let mt2 := ibaMix2 623 i1 mt1
  mt2.set 0 0x80000000

/-- Little-endian 32-bit words of a natural number (empty for zero). -/
def natWords (n : Nat) : List Nat :=
  if h : n = 0 then []
  else (n % 2 ^ 32) :: natWords (n / 2 ^ 32)
termination_by n
decreasing_by
  exact Nat.div_lt_self (Nat.pos_of_ne_zero h) (by norm_num)

/-- Seed key used by CPython `random_seed` for an integer seed: the 32-bit
little-endian words of its absolute value, at least one word. -/
def seedKey (n : Nat) : List Nat :=
  if n = 0 then [0] else natWords n

/-- Embedding of `random.Random(seed)` for a non-negative integer seed;
CPython leaves the index at 624 so the first draw triggers a twist. -/
def mtSeed (seed : Nat) : MTState :=
  MTState.mk (initByArray (seedKey seed)) 624

/-- One in-place step of the twist loop at position kk. -/
def twistStep (mtl : List Nat) (kk : Nat) : List Nat :=
  let y := (mtl.getD kk 0 &&& 0x80000000) |||
    (mtl.getD ((kk + 1) % 624) 0 &&& 0x7FFFFFFF)
  mtl.set kk ((mtl.getD ((kk + 397) % 624) 0) ^^^ (y >>> 1) ^^^
    (if y % 2 = 1 then 0x9908B0DF else 0))

/-- Embedding of the generation loop of `genrand_uint32` that refills all
624 words in place. -/
def mtTwist (mtl : List Nat) : List Nat :=
  (List.range 624).foldl twistStep mtl

/-- Tempering transform of `genrand_uint32`. -/
def temper (y0 : Nat) : Nat :=
  let y1 := y0 ^^^ (y0 >>> 11)
  let y2 := y1 ^^^ ((y1 <<< 7) &&& 0x9D2C5680)
  let y3 := y2 ^^^ ((y2 <<< 15) &&& 0xEFC60000)
  y3 ^^^ (y3 >>> 18)

/-- Embedding of `genrand_uint32`: twist when the index is exhausted, then
read, advance and temper. -/
def mtGenrand (st : MTState) : Nat × MTState :=
  let st1 := if 624 ≤ st.index then MTState.mk (mtTwist st.mt) 0 else st
  let y := st1.mt.getD st1.index 0 % 2 ^ 32
  (temper y, MTState.mk st1.mt (st1.index + 1))

/-- Numerator of `random_random` (CPython `genrand_res53`): `a*2^26 + b`
with `a` the top 27 bits of one draw and `b` the top 26 bits of the next,
an integer below 2^53. -/
def randomK (st : MTState) : Nat :=
  let (y1, st1) := mtGenrand st
  let (y2, _) := mtGenrand st1
  (y1 >>> 5) * 67108864 + (y2 >>> 6)

/-- State after one `random()` call (two genrand draws). -/
def randomNext (st : MTState) : MTState :=
  (mtGenrand (mtGenrand st).2).2

/-- Embedding of one `rng.uniform(-1.0, 1.0)` call: `-1.0 + 2.0*random()`,
whose IEEE-754 value is exactly the rational below. -/
def uniformVal (st : MTState) : ℚ :=
  -1 + 2 * ((randomK st : ℚ) / 9007199254740992)

/-- The list of the first n `rng.uniform(-1.0, 1.0)` draws. -/
def uniformDraws : MTState → Nat → List ℚ
  | _, 0 => []
  | st, n + 1 => uniformVal st :: uniformDraws (randomNext st) n

/-- Embedding of `generate_embedding` (server.py lines 13-17) with the
configured dimension made explicit: seed a fresh twister with the SHA-256
digest of the UTF-8 text and draw `dim` uniform samples (`range` of a
negative dimension is empty, hence `Int.toNat`). -/
def generate_embedding (dim : Int) (text : String) : List ℚ :=
  uniformDraws (mtSeed (sha256Int (utf8Encode text))) dim.toNat

/-! ### Route handlers -/

/-- Sparse entry as returned by `/embed_sparse`. -/
structure SparseEntry where
  index : Int
  value : ℚ
deriving DecidableEq, Repr

/-- Embedding of the `/embed` handler (server.py lines 39-44): a raised
exception surfaces as `Except.error`, which the framework maps to a 500. -/
def embedRoute (dim : Int) (body : Option Json) :
    Except PyErr (List (List ℚ)) :=
  match normalize_inputs (effectivePayload body) with
  | .error e => .error e
  | .ok xs => .ok (xs.map (generate_embedding dim))

/-- Embedding of the `/embed_sparse` handler (server.py lines 47-53). -/
def sparseRoute (body : Option Json) :
    Except PyErr (List (List SparseEntry)) :=
  match normalize_inputs (effectivePayload body) with
  | .error e => .error e
  | .ok xs => .ok (xs.map (fun _ => [SparseEntry.mk 0 0]))

/-- HTTP status of a handler result: 200 on success, 500 when the handler
raised. -/
def statusOf {α : Type} : Except PyErr α → Nat
  | .ok _ => 200
  | .error _ => 500

/-- Embedding of the `/health` handler. -/
def healthRoute : String × Nat := ("ok", 200)

/-- Embedding of the `/info` handler body. -/
def infoRoute : String := "BAAI/bge-m3"

/-- One run of the process: parse `EMBEDDING_DIM` at import time, then
serve the given sequence of `/embed` request bodies. -/
def runServer (env : List (String × String)) (reqs : List (Option Json)) :
    Except PyErr (List (Except PyErr (List (List ℚ)))) :=
  match startup env with
  | .error e => .error e
  | .ok dim => .ok (reqs.map (embedRoute dim))

/-- A sequence of direct `generate_embedding` invocations in one process
run. -/
def genRun (dim : Int) (calls : List String) : List (List ℚ) :=
  calls.map (generate_embedding dim)

/-- Request bodies on which the handlers are exception-free: absent bodies,
bodies decoding to a JSON object, and falsy decoded values (which the
`or \x7b\x7d` replaces by the empty dict). -/
def bodySafe (body : Option Json) : Bool :=
  match body with
  | none => true
  | some (Json.obj _) => true
  | some j => !pyTruthy j

/-! ### Helper lemmas -/

theorem uniformDraws_length (n : Nat) (st : MTState) :
    (uniformDraws st n).length = n := by
  induction n generalizing st with
  | zero => rfl
  | succ n ih => simp [uniformDraws, ih]

theorem uniformDraws_take (n k : Nat) (st : MTState) :
    (uniformDraws st (n + k)).take n = uniformDraws st n := by
  induction n generalizing st with
  | zero => simp [uniformDraws]
  | succ n ih =>
    have h : n + 1 + k = (n + k) + 1 := by omega
    rw [h]
    simp only [uniformDraws, List.take_succ_cons, ih]

theorem xorShiftRight_lt (y k : Nat) (h : y < 2 ^ 32) :
    y ^^^ (y >>> k) < 2 ^ 32 :=
  Nat.xor_lt_two_pow h
    (Nat.lt_of_le_of_lt
      (by rw [Nat.shiftRight_eq_div_pow]; exact Nat.div_le_self _ _) h)

theorem xorShiftLeftMask_lt (y k m : Nat) (h : y < 2 ^ 32) (hm : m < 2 ^ 32) :
    y ^^^ ((y <<< k) &&& m) < 2 ^ 32 :=
  Nat.xor_lt_two_pow h (Nat.and_lt_two_pow _ hm)

theorem temper_lt (y0 : Nat) (h : y0 < 2 ^ 32) : temper y0 < 2 ^ 32 := by
  unfold temper
  exact xorShiftRight_lt _ 18
    (xorShiftLeftMask_lt _ 15 _
      (xorShiftLeftMask_lt _ 7 _ (xorShiftRight_lt _ 11 h) (by norm_num))
      (by norm_num))

theorem mtGenrand_fst_lt (st : MTState) : (mtGenrand st).1 < 2 ^ 32 :=
  temper_lt _ (Nat.mod_lt _ (by norm_num))

theorem randomK_lt (st : MTState) : randomK st < 2 ^ 53 := by
  have h1 : (mtGenrand st).1 < 2 ^ 32 := mtGenrand_fst_lt st
  have h2 : (mtGenrand (mtGenrand st).2).1 < 2 ^ 32 := mtGenrand_fst_lt _
  have e : randomK st =
      ((mtGenrand st).1 >>> 5) * 67108864 + ((mtGenrand (mtGenrand st).2).1 >>> 6) :=
    rfl
  rw [e, Nat.shiftRight_eq_div_pow, Nat.shiftRight_eq_div_pow]
  have ha : (mtGenrand st).1 / 2 ^ 5 < 2 ^ 27 :=
    Nat.div_lt_of_lt_mul (by norm_num at h1 ⊢; omega)
  have hb : (mtGenrand (mtGenrand st).2).1 / 2 ^ 6 < 2 ^ 26 :=
    Nat.div_lt_of_lt_mul (by norm_num at h2 ⊢; omega)
  norm_num at ha hb ⊢
  omega

theorem uniformVal_bounds (st : MTState) :
    -1 ≤ uniformVal st ∧ uniformVal st ≤ 1 := by
  have hk0 : (0 : ℚ) ≤ (randomK st : ℚ) := Nat.cast_nonneg _
  have hk : (randomK st : ℚ) ≤ 9007199254740992 := by
    have h := randomK_lt st
    have h2 : randomK st ≤ 9007199254740992 := by norm_num at h; omega
    exact_mod_cast h2
  have hd0 : (0 : ℚ) ≤ (randomK st : ℚ) / 9007199254740992 := by positivity
  have hd1 : (randomK st : ℚ) / 9007199254740992 ≤ 1 := by
    rw [div_le_one (by norm_num)]
    exact hk
  unfold uniformVal
  constructor <;> linarith

theorem mem_uniformDraws_bounds (n : Nat) (st : MTState) (q : ℚ)
    (hq : q ∈ uniformDraws st n) : -1 ≤ q ∧ q ≤ 1 := by
  induction n generalizing st with
  | zero => simp [uniformDraws] at hq
  | succ n ih =>
    simp only [uniformDraws, List.mem_cons] at hq
    rcases hq with h | h
    · subst h; exact uniformVal_bounds st
    · exact ih _ h

theorem normalize_inputs_obj_ok (kvs : List (String × Json)) :
    ∃ ss, normalize_inputs (Json.obj kvs) = .ok ss := by
  cases h : (dictLookup kvs "inputs").getD (Json.arr []) with
  | null => exact ⟨[], by simp [normalize_inputs, pyGet, h]⟩
  | bool b => exact ⟨[], by simp [normalize_inputs, pyGet, h]⟩
  | int n => exact ⟨[], by simp [normalize_inputs, pyGet, h]⟩
  | str s => exact ⟨[s], by simp [normalize_inputs, pyGet, h]⟩
  | arr l => exact ⟨l.map pyStr, by simp [normalize_inputs, pyGet, h]⟩
  | obj o => exact ⟨[], by simp [normalize_inputs, pyGet, h]⟩

theorem bodySafe_obj (body : Option Json) (h : bodySafe body = true) :
    ∃ kvs, effectivePayload body = Json.obj kvs := by
  match body with
  | none => exact ⟨[], rfl⟩
  | some (Json.obj kvs) =>
    unfold effectivePayload
    cases hpt : pyTruthy (Json.obj kvs) with
    | true => exact ⟨kvs, by simp [hpt]⟩
    | false => exact ⟨[], by simp [hpt]⟩
  | some Json.null => exact ⟨[], rfl⟩
  | some (Json.bool b) =>
    simp only [bodySafe, Bool.not_eq_eq_eq_not, Bool.not_true] at h
    exact ⟨[], by simp [effectivePayload, h]⟩
  | some (Json.int n) =>
    simp only [bodySafe, Bool.not_eq_eq_eq_not, Bool.not_true] at h
    exact ⟨[], by simp [effectivePayload, h]⟩
  | some (Json.str s) =>
    simp only [bodySafe, Bool.not_eq_eq_eq_not, Bool.not_true] at h
    exact ⟨[], by simp [effectivePayload, h]⟩
  | some (Json.arr l) =>
    simp only [bodySafe, Bool.not_eq_eq_eq_not, Bool.not_true] at h
    exact ⟨[], by simp [effectivePayload, h]⟩

/-! ### Claim theorems -/

/-- C1: the embedding generator is deterministic: two invocations of
`generate_embedding` on the same string under the same configured
dimension, at any positions of any two invocation sequences (same run,
different runs or different processes), return exactly the same vector;
the output is a pure function of the text and the dimension only. -/
theorem generate_embedding_deterministic (dim : Int)
    (run1 run2 : List String) (i j : Nat) (s : String)
    (h1 : run1[i]? = some s) (h2 : run2[j]? = some s) :
    (genRun dim run1)[i]? = (genRun dim run2)[j]? := by
  unfold genRun
  rw [List.getElem?_map, List.getElem?_map, h1, h2]

theorem generate_embedding_deterministic_witness :
    (["a", "b"][1]? = some "b") ∧ (["b"][0]? = some "b") ∧
      (genRun 1024 ["a", "b"])[1]? = (genRun 1024 ["b"])[0]? :=
  ⟨rfl, rfl,
    generate_embedding_deterministic 1024 ["a", "b"] ["b"] 1 0 "b" (by rfl)
      (by rfl)⟩

/-- C2 (counterexample): a request body that decodes to the truthy JSON
array `[1]` makes `normalize_inputs` raise `AttributeError` (a list has no
`.get`), so `/embed` does not answer 200; the claim that every JSON shape
normalizes without error is false on the code. -/
theorem embed_malformed_counterexample :
    embedRoute 1024 (some (Json.arr [Json.int 1])) = .error .attributeError ∧
      statusOf (embedRoute 1024 (some (Json.arr [Json.int 1]))) ≠ 200 :=
  ⟨rfl, by decide⟩

/-- C2 (amended): for request bodies that are absent, non-JSON, falsy, or
JSON objects of any content, normalization always succeeds and `/embed`
answers 200 with one vector per normalized input (the empty list for an
empty normalized input). -/
theorem embed_normalization_amended (dim : Int) (body : Option Json)
    (h : bodySafe body = true) :
    ∃ ss : List String,
      normalize_inputs (effectivePayload body) = .ok ss ∧
      embedRoute dim body = .ok (ss.map (generate_embedding dim)) ∧
      statusOf (embedRoute dim body) = 200 ∧
      (ss = [] → embedRoute dim body = .ok []) := by
  obtain ⟨kvs, hk⟩ := bodySafe_obj body h
  obtain ⟨ss, hss⟩ := normalize_inputs_obj_ok kvs
  refine ⟨ss, by rw [hk]; exact hss, ?_, ?_, ?_⟩
  · unfold embedRoute
    rw [hk, hss]
  · unfold statusOf embedRoute
    rw [hk, hss]
  · intro he
    subst he
    unfold embedRoute
    rw [hk, hss]
    rfl

theorem embed_normalization_amended_witness :
    bodySafe (some (Json.obj [("inputs", Json.int 42)])) = true ∧
      (∃ ss : List String,
        normalize_inputs
          (effectivePayload (some (Json.obj [("inputs", Json.int 42)]))) =
          .ok ss ∧
        embedRoute 1024 (some (Json.obj [("inputs", Json.int 42)])) =
          .ok (ss.map (generate_embedding 1024)) ∧
        statusOf (embedRoute 1024 (some (Json.obj [("inputs", Json.int 42)]))) =
          200 ∧
        (ss = [] →
          embedRoute 1024 (some (Json.obj [("inputs", Json.int 42)])) =
            .ok [])) :=
  ⟨rfl,
    embed_normalization_amended 1024 (some (Json.obj [("inputs", Json.int 42)]))
      (by rfl)⟩

/-- C3: dimension invariant: for every string (the empty string included)
and every non-negative configured dimension, `generate_embedding` returns
a list of exactly that many values. -/
theorem generate_embedding_dim (dim : Int) (s : String) (h : 0 ≤ dim) :
    ((generate_embedding dim s).length : Int) = dim := by
  unfold generate_embedding
  rw [uniformDraws_length]
  exact Int.toNat_of_nonneg h

theorem generate_embedding_dim_witness :
    (0 : Int) ≤ 0 ∧ ((generate_embedding 0 "").length : Int) = 0 :=
  ⟨le_refl 0, generate_embedding_dim 0 "" (le_refl 0)⟩

/-- C4: range invariant: every component of the vector returned by
`generate_embedding` lies in the closed interval [-1, 1] (read through
`getD`, whose out-of-range default 0 also lies in the interval). -/
theorem generate_embedding_range (dim : Int) (s : String) (i : Nat) :
    -1 ≤ (generate_embedding dim s).getD i 0 ∧
      (generate_embedding dim s).getD i 0 ≤ 1 := by
  rcases Nat.lt_or_ge i (generate_embedding dim s).length with hi | hi
  · have hg : (generate_embedding dim s).getD i 0 = (generate_embedding dim s)[i] := by
      simp [List.getD_eq_getElem?_getD, List.getElem?_eq_getElem hi]
    rw [hg]
    exact mem_uniformDraws_bounds _ _ _ (List.getElem_mem hi)
  · have hg : (generate_embedding dim s).getD i 0 = 0 := by
      simp [List.getD_eq_getElem?_getD, List.getElem?_eq_none hi]
    rw [hg]
    norm_num

/-- C5: normalization shape rules on a decoded request object: a string
value of the `inputs` field is wrapped in a singleton, a sequence value is
coerced element-wise to text in order (numbers included, as in the
`[a, b, 3]` example), an absent field yields the empty list, and any
other shape yields the empty list. -/
theorem normalize_inputs_cases (kvs : List (String × Json)) :
    (∀ v, dictLookup kvs "inputs" = some (Json.str v) →
      normalize_inputs (Json.obj kvs) = .ok [v]) ∧
    (∀ l, dictLookup kvs "inputs" = some (Json.arr l) →
      normalize_inputs (Json.obj kvs) = .ok (l.map pyStr)) ∧
    (dictLookup kvs "inputs" = none →
      normalize_inputs (Json.obj kvs) = .ok []) ∧
    (∀ j, dictLookup kvs "inputs" = some j → (∀ v, j ≠ Json.str v) →
      (∀ l, j ≠ Json.arr l) → normalize_inputs (Json.obj kvs) = .ok []) ∧
    normalize_inputs
      (Json.obj [("inputs", Json.arr [Json.str "a", Json.str "b", Json.int 3])]) =
      .ok ["a", "b", "3"] := by
  refine ⟨?_, ?_, ?_, ?_, rfl⟩
  · intro v hv
    simp [normalize_inputs, pyGet, hv]
  · intro l hl
    simp [normalize_inputs, pyGet, hl]
  · intro hn
    simp [normalize_inputs, pyGet, hn]
  · intro j hj hstr harr
    cases j with
    | str v => exact absurd rfl (hstr v)
    | arr l => exact absurd rfl (harr l)
    | null => simp [normalize_inputs, pyGet, hj]
    | bool b => simp [normalize_inputs, pyGet, hj]
    | int n => simp [normalize_inputs, pyGet, hj]
    | obj o => simp [normalize_inputs, pyGet, hj]

theorem normalize_inputs_cases_witness :
    dictLookup [("inputs", Json.str "hello")] "inputs" =
      some (Json.str "hello") ∧
    normalize_inputs (Json.obj [("inputs", Json.str "hello")]) =
      .ok ["hello"] :=
  ⟨rfl,
    (normalize_inputs_cases [("inputs", Json.str "hello")]).1 "hello" (by rfl)⟩

/-- C6: misconfiguration is fail-fast: when the `EMBEDDING_DIM`
environment value does not parse as an integer, the import-time
dimension-parsing step raises, so the whole run fails before any request
is served, whatever the request sequence. -/
theorem startup_failfast (env : List (String × String))
    (reqs : List (Option Json)) (e : PyErr)
    (h : pyInt (envGet env "EMBEDDING_DIM" "1024") = .error e) :
    runServer env reqs = .error e := by
  unfold runServer startup
  rw [h]

theorem startup_failfast_witness :
    pyInt (envGet [("EMBEDDING_DIM", "abc")] "EMBEDDING_DIM" "1024") =
      .error .valueError ∧
    runServer [("EMBEDDING_DIM", "abc")] [none] = .error .valueError :=
  ⟨rfl,
    startup_failfast [("EMBEDDING_DIM", "abc")] [none] .valueError (by rfl)⟩

/-- C7: length and order preservation: whenever normalization of a request
body produces a list of strings, `/embed` returns exactly the element-wise
image of that list under the generator and `/embed_sparse` one stub per
element, so both response lists have the length of the normalized input
list with the i-th element derived from the i-th input. -/
theorem routes_length_order (dim : Int) (body : Option Json)
    (ss : List String)
    (h : normalize_inputs (effectivePayload body) = .ok ss) :
    embedRoute dim body = .ok (ss.map (generate_embedding dim)) ∧
    sparseRoute body = .ok (ss.map fun _ => [SparseEntry.mk 0 0]) ∧
    (ss.map (generate_embedding dim)).length = ss.length ∧
    (ss.map fun _ : String => [SparseEntry.mk 0 0]).length = ss.length := by
  refine ⟨?_, ?_, List.length_map _ _, List.length_map _ _⟩
  · unfold embedRoute
    rw [h]
  · unfold sparseRoute
    rw [h]

theorem routes_length_order_witness :
    normalize_inputs
      (effectivePayload
        (some (Json.obj [("inputs", Json.arr [Json.str "x", Json.str "y"])]))) =
      .ok ["x", "y"] ∧
    embedRoute 4 (some (Json.obj [("inputs", Json.arr [Json.str "x", Json.str "y"])])) =
      .ok (["x", "y"].map (generate_embedding 4)) :=
  ⟨rfl,
    (routes_length_order 4
      (some (Json.obj [("inputs", Json.arr [Json.str "x", Json.str "y"])]))
      ["x", "y"] (by rfl)).1⟩

/-- C8: sparse stub content: for each normalized input string, whatever
its content, `/embed_sparse` answers with the single-entry list holding
the one stub pair of index 0 and value 0. -/
theorem sparseRoute_stub (body : Option Json) (ss : List String)
    (h : normalize_inputs (effectivePayload body) = .ok ss) :
    sparseRoute body = .ok (ss.map fun _ => [SparseEntry.mk 0 0]) := by
  unfold sparseRoute
  rw [h]

theorem sparseRoute_stub_witness :
    normalize_inputs
      (effectivePayload
        (some (Json.obj [("inputs", Json.arr [Json.str "x", Json.str "y"])]))) =
      .ok ["x", "y"] ∧
    sparseRoute (some (Json.obj [("inputs", Json.arr [Json.str "x", Json.str "y"])])) =
      .ok [[SparseEntry.mk 0 0], [SparseEntry.mk 0 0]] :=
  ⟨rfl,
    sparseRoute_stub
      (some (Json.obj [("inputs", Json.arr [Json.str "x", Json.str "y"])]))
      ["x", "y"] (by rfl)⟩

/-- C9: prefix coherence across dimensions: the vector generated for a
string under a smaller configured dimension is exactly the prefix of the
vector generated under a larger one, because all components are drawn in
order from a single generator seeded only by the digest of the text. -/
theorem generate_embedding_coherent (s : String) (d1 d2 : Int) (h : d1 ≤ d2) :
    generate_embedding d1 s = (generate_embedding d2 s).take d1.toNat := by
  unfold generate_embedding
  obtain ⟨k, hk⟩ := Nat.le.dest (Int.toNat_le_toNat h)
  rw [← hk, uniformDraws_take]

theorem generate_embedding_coherent_witness :
    (2 : Int) ≤ 4 ∧
      generate_embedding 2 "x" = (generate_embedding 4 "x").take (2 : Int).toNat :=
  ⟨by norm_num, generate_embedding_coherent "x" 2 4 (by norm_num)⟩

/-- C10: a negative parsed `EMBEDDING_DIM` is accepted silently: startup
succeeds with the negative dimension, `generate_embedding` returns the
empty vector for every string (the range over a negative count is empty),
and `/embed` answers with one empty list per normalized input. -/
theorem negative_dim_accepted (env : List (String × String)) (d : Int)
    (hd : pyInt (envGet env "EMBEDDING_DIM" "1024") = .ok d) (hneg : d < 0) :
    startup env = .ok d ∧
    (∀ s, generate_embedding d s = []) ∧
    (∀ body ss, normalize_inputs (effectivePayload body) = .ok ss →
      embedRoute d body = .ok (ss.map fun _ => ([] : List ℚ))) := by
  have hz : ∀ s, generate_embedding d s = [] := by
    intro s
    unfold generate_embedding
    rw [Int.toNat_of_nonpos (le_of_lt hneg)]
    rfl
  refine ⟨hd, hz, ?_⟩
  intro body ss h
  unfold embedRoute
  rw [h]
  show Except.ok (ss.map (generate_embedding d)) =
    Except.ok (ss.map fun _ => ([] : List ℚ))
  congr 1
  exact List.map_congr_left (fun a _ => hz a)

theorem negative_dim_accepted_witness :
    pyInt (envGet [("EMBEDDING_DIM", "-5")] "EMBEDDING_DIM" "1024") =
      .ok (-5) ∧
    (-5 : Int) < 0 ∧
    startup [("EMBEDDING_DIM", "-5")] = .ok (-5) ∧
    generate_embedding (-5) "x" = [] ∧
    embedRoute (-5)
      (some (Json.obj [("inputs", Json.arr [Json.str "x", Json.str "y"])])) =
      .ok [[], []] :=
  ⟨rfl, by norm_num,
    (negative_dim_accepted [("EMBEDDING_DIM", "-5")] (-5) (by rfl)
      (by norm_num)).1,
    (negative_dim_accepted [("EMBEDDING_DIM", "-5")] (-5) (by rfl)
      (by norm_num)).2.1 "x",
    (negative_dim_accepted [("EMBEDDING_DIM", "-5")] (-5) (by rfl)
      (by norm_num)).2.2
      (some (Json.obj [("inputs", Json.arr [Json.str "x", Json.str "y"])]))
      ["x", "y"] (by rfl)⟩

example : normalize_inputs (Json.obj [("inputs", Json.str "hello")]) =
    .ok ["hello"] := rfl
example : normalize_inputs
    (Json.obj [("inputs", Json.arr [Json.str "a", Json.str "b", Json.int 3])]) =
    .ok ["a", "b", "3"] := rfl
example : normalize_inputs (Json.obj []) = .ok [] := rfl
example : normalize_inputs (Json.obj [("inputs", Json.int 42)]) = .ok [] := rfl
example : normalize_inputs (Json.arr [Json.int 1]) =
    .error .attributeError := rfl
example : pyInt "abc" = .error .valueError := rfl
example : pyInt "-5" = .ok (-5) := rfl
example : pyInt " 42 " = .ok 42 := rfl
example : startup [] = .ok 1024 := rfl
example : pyStr (Json.arr [Json.int 1, Json.int 2]) = "[1, 2]" := rfl
example : pyStr (Json.obj [("a", Json.int 1)]) = "\x7b\x27a\x27: 1\x7d" := rfl
